import Mathlib

/-!
Shallow embedding of src/tuning.py, the hyperparameter-tuning driver of an
asynchronous actor-learner (A3C/UNREAL) trainer.  The embedding covers the
pieces the specification makes claims about: the loss composition and the
episode-boundary handling of the worker loop (train), the reward bonus for
cleared lines, the shared step counter, the polling loop, process lifecycle
and trial scoring of the objective function, and the sampler persistence of
the main block.  Rewards and losses are modelled as rationals, counters as
naturals, line counts as integers; fallible Python operations (division by
zero, evaluation of an unbound name) are embedded as explicit sum types.
-/

namespace Tuning

/-- Loss of the sequential replay sample, tuning.py line 128:
a3c_loss = policy_loss + value_loss. -/
def a3c_loss (policy_loss value_loss : ℚ) : ℚ :=
  policy_loss + value_loss

/-- Total loss composed at tuning.py lines 149 to 151:
total_loss = a3c_loss + vr_loss + task_weight * aux_control_loss + rp_loss,
where a3c_loss came from the sequential sample, vr_loss and aux_control_loss
from the random sample and rp_loss from the reward-prediction sample. -/
def total_loss (policy_loss value_loss vr_loss aux_control_loss rp_loss
    task_weight : ℚ) : ℚ :=
  a3c_loss policy_loss value_loss + vr_loss + task_weight * aux_control_loss
    + rp_loss

/-- Trial score computed at tuning.py line 259:
mean_rewards = global_rewards.value / global_steps.value.  Python raises
ZeroDivisionError when the integer steps counter is 0; the fallible division
is embedded as an Option whose none case stands for the raised error. -/
def mean_rewards (global_rewards : ℚ) (global_steps : ℕ) : Option ℚ :=
  if global_steps = 0 then none else some (global_rewards / global_steps)

/-- Reward bonus for cleared lines, tuning.py lines 95 to 97: when the count
reported in the info payload exceeds the recorded prev_lines, add 10 times
the increment to the reward of the step and record the new count; otherwise
leave both values unchanged.  Returns the pair (reward, prev_lines) after
the conditional. -/
def line_bonus (reward : ℚ) (prev_lines lines : ℤ) : ℚ × ℤ :=
  if lines > prev_lines then (reward + 10 * (lines - prev_lines), lines)
  else (reward, prev_lines)

/-- C1: in every worker update cycle the total loss backpropagated equals the
literal sum policy_loss + value_loss + value_replay_loss + auxiliary_weight *
control_loss + reward_prediction_loss, and with the stub losses policy 1,
value 2, control 3, weight 0.1, value replay 4, reward prediction 5 the total
is 12.3. -/
theorem total_loss_literal_sum :
    (∀ p v vr c rp w : ℚ,
      total_loss p v vr c rp w = p + v + vr + w * c + rp) ∧
    total_loss 1 2 4 3 5 (1 / 10) = 123 / 10 := by
  constructor
  · intro p v vr c rp w
    unfold total_loss a3c_loss
    ring
  · unfold total_loss a3c_loss
    norm_num

/-- C2: the trial score is the cumulative shared reward divided by the
cumulative shared steps, so for counters (100, 50) it is 2; when the steps
counter is 0 the computation fails explicitly with ZeroDivisionError,
embedded as none, instead of silently producing a value. -/
theorem mean_rewards_score_and_zero_guard :
    mean_rewards 100 50 = some 2 ∧
    (∀ r : ℚ, mean_rewards r 0 = none) ∧
    (∀ (r : ℚ) (s : ℕ), s ≠ 0 → mean_rewards r s = some (r / s)) := by
  refine ⟨?_, ?_, ?_⟩
  · unfold mean_rewards
    norm_num
  · intro r
    simp [mean_rewards]
  · intro r s hs
    simp [mean_rewards, hs]

/-- Witness for C2 at the concrete counters (6, 3). -/
theorem mean_rewards_score_witness :
    mean_rewards 6 3 = some ((6 : ℚ) / 3) :=
  mean_rewards_score_and_zero_guard.2.2 6 3 (by decide)

/-- C3: per environment step the reward bonus is applied exactly when the
reported line count strictly exceeds the recorded count, the bonus equals 10
times the increment (so the reward strictly grows), and on a zero or negative
increment the reward and the recorded count are both unchanged. -/
theorem line_bonus_characterisation (reward : ℚ) (prev_lines lines : ℤ) :
    (prev_lines < lines →
      line_bonus reward prev_lines lines
        = (reward + 10 * (lines - prev_lines), lines)) ∧
    (lines ≤ prev_lines →
      line_bonus reward prev_lines lines = (reward, prev_lines)) ∧
    (prev_lines < lines →
      reward < (line_bonus reward prev_lines lines).1) := by
  refine ⟨?_, ?_, ?_⟩
  · intro h
    simp [line_bonus, h]
  · intro h
    simp [line_bonus, not_lt.mpr h]
  · intro h
    have h1 : (1 : ℤ) ≤ lines - prev_lines := by omega
    have h2 : (10 : ℚ) ≤ 10 * ((lines : ℚ) - prev_lines) := by
      have : (1 : ℚ) ≤ (lines : ℚ) - prev_lines := by
        exact_mod_cast (by exact_mod_cast h1 : (1 : ℚ) ≤ ((lines - prev_lines : ℤ) : ℚ))
      linarith
    simp only [line_bonus, if_pos h]
    linarith

/-- Witness for C3: a jump from 2 to 4 recorded lines adds a bonus of 20 to a
reward of 5, and a drop from 4 to 2 changes nothing. -/
theorem line_bonus_witness :
    line_bonus 5 2 4 = ((5 : ℚ) + 10 * (((4 : ℤ) : ℚ) - ((2 : ℤ) : ℚ)), 4) ∧
    line_bonus 5 4 2 = ((5 : ℚ), (4 : ℤ)) :=
  ⟨(line_bonus_characterisation 5 2 4).1 (by decide),
   (line_bonus_characterisation 5 4 2).2.1 (by decide)⟩

/-- Worker outer loop at tuning.py line 63: while the stop event is not set,
run one rollout plus update cycle.  The stop event is read exactly once per
iteration, at the top of the loop (line 63 is its only read in train), so the
list argument gives the signal values observed at successive top-of-loop
checks; the result is the number of completed cycles before the loop exits. -/
def worker_cycles : List Bool → ℕ
  | [] => 0
  | observed :: rest => if observed then 0 else worker_cycles rest + 1

/-- Every completed cycle corresponds to a top-of-loop check that observed the
signal unset. -/
theorem worker_cycles_false_before :
    ∀ (signals : List Bool) (j : ℕ), j < worker_cycles signals →
      signals.get? j = some false
  | [], j, h => by simp [worker_cycles] at h
  | s :: rest, j, h => by
    by_cases hs : s
    · simp [worker_cycles, hs] at h
    · cases j with
      | zero => simp [eq_false_of_ne_true hs]
      | succ j =>
        simp only [worker_cycles, hs, if_false, Bool.false_eq_true] at h
        simpa using worker_cycles_false_before rest j (by omega)

/-- When the loop exits within the observed trace, the exit check observed the
signal set. -/
theorem worker_cycles_exit_observed :
    ∀ signals : List Bool, worker_cycles signals < signals.length →
      signals.get? (worker_cycles signals) = some true
  | [], h => by simp [worker_cycles] at h
  | s :: rest, h => by
    by_cases hs : s
    · simp [worker_cycles, hs]
    · simp only [worker_cycles, hs, if_false, Bool.false_eq_true,
        List.length_cons] at h ⊢
      simpa using worker_cycles_exit_observed rest (by omega)

/-- The cycle count is bounded by the index of any check observing the signal
set. -/
theorem worker_cycles_le_of_true :
    ∀ (signals : List Bool) (i : ℕ), signals.get? i = some true →
      worker_cycles signals ≤ i
  | [], i, h => by simp at h
  | s :: rest, i, h => by
    by_cases hs : s
    · simp [worker_cycles, hs]
    · cases i with
      | zero =>
        simp only [List.get?_cons_zero, Option.some.injEq] at h
        exact absurd h hs
      | succ i =>
        simp only [worker_cycles, hs, if_false, Bool.false_eq_true]
        exact Nat.succ_le_succ
          (worker_cycles_le_of_true rest i (by simpa using h))

/-- A signal that stays unset for k checks and is then observed set yields
exactly k completed cycles. -/
theorem worker_cycles_replicate :
    ∀ k : ℕ, worker_cycles (List.replicate k false ++ [true]) = k
  | 0 => rfl
  | k + 1 => by
    simp only [List.replicate_succ, List.cons_append, worker_cycles,
      Bool.false_eq_true, if_false]
    exact congrArg (fun n => n + 1) (worker_cycles_replicate k)

/-- C4: the worker outer loop exits only on a stop signal observed set at a
top-of-iteration check: every completed cycle saw the signal unset, the check
at which the loop exits sees it set, the number of completed cycles never
exceeds the index of a check that sees the signal set, and when the signal is
unset for the first k checks and set from then on exactly k cycles complete —
so once the signal is set at most the one in-flight cycle finishes. -/
theorem worker_loop_stops_on_signal (signals : List Bool) :
    (∀ j, j < worker_cycles signals → signals.get? j = some false) ∧
    (worker_cycles signals < signals.length →
      signals.get? (worker_cycles signals) = some true) ∧
    (∀ i, signals.get? i = some true → worker_cycles signals ≤ i) ∧
    (∀ k, worker_cycles (List.replicate k false ++ [true]) = k) :=
  ⟨worker_cycles_false_before signals,
   worker_cycles_exit_observed signals,
   worker_cycles_le_of_true signals,
   worker_cycles_replicate⟩

/-- Witness for C4 on the trace false, false, true: at most two cycles run
and the first check observed the signal unset. -/
theorem worker_loop_stops_witness :
    worker_cycles [false, false, true] ≤ 2 ∧
    [false, false, true].get? 0 = some false :=
  ⟨(worker_loop_stops_on_signal [false, false, true]).2.2.1 2 (by decide),
   (worker_loop_stops_on_signal [false, false, true]).1 0 (by decide)⟩

/-- Worker state threaded through the inner rollout loop of train: the one-hot
previous-action vector, the previous reward, the two recurrent hidden vectors
hx and cx, the recorded line count, the completed-reset counter num_games and
the number of env.reset calls made so far. -/
structure EpisodeState where
  prev_action : List ℚ
  prev_reward : ℚ
  hx : List ℚ
  cx : List ℚ
  prev_lines : ℤ
  num_games : ℕ
  env_resets : ℕ
  deriving DecidableEq

/-- Episode-boundary handling at tuning.py lines 70 to 84.  When done holds,
env.reset is called, prev_action, prev_reward, hx and cx are zeroed, the line
count is reset, and when rank is 0 and num_games is nonzero the raw cumulative
reward global_rewards.value is reported to the trial at step num_games; then
num_games is incremented.  When done does not hold, hx and cx are only
detached, which leaves their values unchanged, and nothing is reported.
Returns the updated state and the optional (value, step) report. -/
def episode_boundary (rank hidden_size n_actions : ℕ) (global_rewards : ℚ)
    (done : Bool) (st : EpisodeState) : EpisodeState × Option (ℚ × ℕ) :=
  if done then
    ({ prev_action := List.replicate n_actions 0
       prev_reward := 0
       hx := List.replicate hidden_size 0
       cx := List.replicate hidden_size 0
       prev_lines := 0
       num_games := st.num_games + 1
       env_resets := st.env_resets + 1 },
     if rank = 0 ∧ st.num_games ≠ 0 then some (global_rewards, st.num_games)
     else none)
  else (st, none)

/-- Report value as claim C5 words it: the current mean reward, cumulative
reward divided by cumulative steps, at the completed-episode step index.
Stated from the claim for comparison with episode_boundary, which reports the
raw cumulative reward and never consults the step counter. -/
def claimed_mean_report (rank num_games : ℕ) (global_rewards : ℚ)
    (global_steps : ℕ) : Option (ℚ × ℕ) :=
  if rank = 0 ∧ num_games ≠ 0 then
    some (global_rewards / global_steps, num_games)
  else none

/-- C5 counterexample: for worker 0 with one completed episode, cumulative
reward 100 and 50 shared steps, the code reports the value 100, the raw
cumulative reward, while the mean reward named by the claim is 2. -/
theorem episode_report_not_mean :
    (episode_boundary 0 2 3 100 true
        { prev_action := [1, 0, 0], prev_reward := 3, hx := [5, 5],
          cx := [7, 7], prev_lines := 2, num_games := 1, env_resets := 1 }).2
      = some (100, 1) ∧
    claimed_mean_report 0 1 100 50 = some (2, 1) ∧
    some ((100 : ℚ), 1) ≠ some ((2 : ℚ), 1) := by
  refine ⟨?_, ?_, ?_⟩
  · simp [episode_boundary]
  · rw [claimed_mean_report]
    norm_num
  · simp only [ne_eq, Option.some.injEq, Prod.mk.injEq]
    norm_num

/-- C5 amended: on episode termination the environment is reset and the
recurrent hidden state, previous action and previous reward are zeroed; the
worker of rank 0, once at least one episode is complete, reports the raw
cumulative shared reward (not the mean reward) at a step index equal to the
completed-episode count; workers of nonzero rank never report, and nothing is
reported or reset when the episode has not terminated. -/
theorem episode_boundary_behaviour (rank hidden_size n_actions : ℕ) (g : ℚ)
    (st : EpisodeState) :
    ((episode_boundary rank hidden_size n_actions g true st).1.prev_action
        = List.replicate n_actions 0 ∧
      (episode_boundary rank hidden_size n_actions g true st).1.prev_reward
        = 0 ∧
      (episode_boundary rank hidden_size n_actions g true st).1.hx
        = List.replicate hidden_size 0 ∧
      (episode_boundary rank hidden_size n_actions g true st).1.cx
        = List.replicate hidden_size 0 ∧
      (episode_boundary rank hidden_size n_actions g true st).1.prev_lines
        = 0 ∧
      (episode_boundary rank hidden_size n_actions g true st).1.env_resets
        = st.env_resets + 1 ∧
      (episode_boundary rank hidden_size n_actions g true st).1.num_games
        = st.num_games + 1) ∧
    ((episode_boundary rank hidden_size n_actions g true st).2
        = if rank = 0 ∧ st.num_games ≠ 0 then some (g, st.num_games)
          else none) ∧
    (rank ≠ 0 →
      (episode_boundary rank hidden_size n_actions g true st).2 = none) ∧
    ((episode_boundary rank hidden_size n_actions g false st).2 = none ∧
      (episode_boundary rank hidden_size n_actions g false st).1 = st) := by
  refine ⟨?_, ?_, ?_, ?_⟩
  · simp [episode_boundary]
  · simp [episode_boundary]
  · intro h
    simp [episode_boundary, h]
  · simp [episode_boundary]

/-- Witness for C5 amended: a worker of rank 1 reports nothing at an episode
boundary. -/
theorem episode_boundary_witness :
    (episode_boundary 1 2 3 100 true
        { prev_action := [9, 9, 9], prev_reward := 1, hx := [1, 1],
          cx := [1, 1], prev_lines := 5, num_games := 4, env_resets := 4 }).2
      = none :=
  (episode_boundary_behaviour 1 2 3 100
      { prev_action := [9, 9, 9], prev_reward := 1, hx := [1, 1],
        cx := [1, 1], prev_lines := 5, num_games := 4,
        env_resets := 4 }).2.2.1 (by decide)

/-- Outcome of one worker process in the shutdown loop of objective,
tuning.py lines 246 to 249. -/
inductive ShutdownOutcome
  | joined
  | terminated
  deriving DecidableEq

/-- Shutdown of one worker, tuning.py lines 247 to 249: join with a timeout of
10 seconds, then terminate the process when it is still alive after the
bounded join.  The argument records whether the process was still alive when
the join timed out. -/
def shutdown_one (alive_after_join : Bool) : ShutdownOutcome :=
  if alive_after_join then ShutdownOutcome.terminated else ShutdownOutcome.joined

/-- Spawn loop of objective, tuning.py lines 213 to 228: one worker process is
started per rank in range(num_agents) and appended to the process list. -/
def spawn_workers (num_agents : ℕ) : List ℕ :=
  List.range num_agents

/-- Shutdown loop of objective over the spawned processes, given for each one
whether it was still alive after its bounded join. -/
def shutdown_workers (alive_after_join : List Bool) : List ShutdownOutcome :=
  alive_after_join.map shutdown_one

/-- C6: the supervisor spawns exactly num_agents worker processes before its
polling loop and processes exactly that many in the shutdown loop, where each
process is joined with a bounded timeout and forcibly terminated exactly when
it is still alive after the timeout, so every spawned process ends joined or
terminated and no join is unbounded. -/
theorem spawn_join_accounting (num_agents : ℕ) (alive_after_join : List Bool) :
    (spawn_workers num_agents).length = num_agents ∧
    (alive_after_join.length = num_agents →
      (shutdown_workers alive_after_join).length = num_agents) ∧
    (∀ b, shutdown_one b
      = if b then ShutdownOutcome.terminated else ShutdownOutcome.joined) ∧
    (∀ o ∈ shutdown_workers alive_after_join,
      o = ShutdownOutcome.joined ∨ o = ShutdownOutcome.terminated) := by
  refine ⟨List.length_range num_agents, ?_, fun b => rfl, ?_⟩
  · intro h
    simpa [shutdown_workers] using h
  · intro o ho
    cases o
    · exact Or.inl rfl
    · exact Or.inr rfl

/-- Witness for C6: with two spawned workers of which the second is stuck,
the shutdown loop processes exactly two. -/
theorem spawn_join_witness :
    (shutdown_workers [false, true]).length = 2 :=
  (spawn_join_accounting 2 [false, true]).2.1 (by decide)

/-- Observable effect of the inner rollout loop on the shared step counter and
on the environment, tuning.py lines 67 to 116. -/
structure RolloutEffects where
  global_steps : ℕ
  env_steps : ℕ
  deriving DecidableEq

/-- One inner-loop iteration: lines 68 to 69 increment global_steps exactly
once under its lock, and line 94 performs the exactly one env.step call of
the iteration. -/
def rollout_iteration (e : RolloutEffects) : RolloutEffects :=
  { global_steps := e.global_steps + 1, env_steps := e.env_steps + 1 }

/-- The inner rollout loop, unroll_steps iterations (line 67). -/
def rollout : ℕ → RolloutEffects → RolloutEffects
  | 0, e => e
  | n + 1, e => rollout n (rollout_iteration e)

/-- Combined effect of a sequence of rollouts, one entry per worker update
cycle across all workers: the per-field lock serialises the increments, so
the shared counter sees the rollouts in some sequential order. -/
def run_rollouts (lengths : List ℕ) (e : RolloutEffects) : RolloutEffects :=
  lengths.foldl (fun acc n => rollout n acc) e

/-- A rollout of n iterations adds n to the step counter and takes n
environment steps. -/
theorem rollout_adds :
    ∀ (n : ℕ) (e : RolloutEffects), rollout n e
      = { global_steps := e.global_steps + n, env_steps := e.env_steps + n }
  | 0, e => by simp [rollout]
  | n + 1, e => by
    rw [rollout, rollout_adds n]
    simp [rollout_iteration]
    omega

/-- A sequence of rollouts adds the total length to both counters. -/
theorem run_rollouts_adds :
    ∀ (lengths : List ℕ) (e : RolloutEffects), run_rollouts lengths e
      = { global_steps := e.global_steps + lengths.sum,
          env_steps := e.env_steps + lengths.sum }
  | [], e => by simp [run_rollouts]
  | n :: rest, e => by
    rw [run_rollouts, List.foldl_cons, rollout_adds n]
    have := run_rollouts_adds rest
      { global_steps := e.global_steps + n, env_steps := e.env_steps + n }
    rw [run_rollouts] at this
    rw [this]
    simp [List.sum_cons]
    omega

/-- C8: each inner-loop iteration performs exactly one locked increment of the
shared step counter and exactly one environment step, so starting from fresh
counters, after any sequence of rollouts by the workers the value of
global_steps equals the total number of environment steps taken. -/
theorem global_steps_counts_env_steps (lengths : List ℕ) :
    (∀ e, (rollout_iteration e).global_steps = e.global_steps + 1 ∧
      (rollout_iteration e).env_steps = e.env_steps + 1) ∧
    (run_rollouts lengths { global_steps := 0, env_steps := 0 }).global_steps
      = lengths.sum ∧
    (run_rollouts lengths { global_steps := 0, env_steps := 0 }).global_steps
      = (run_rollouts lengths
          { global_steps := 0, env_steps := 0 }).env_steps := by
  refine ⟨fun e => ⟨rfl, rfl⟩, ?_, ?_⟩
  · rw [run_rollouts_adds]
    simp
  · rw [run_rollouts_adds]

/-- Exit reason of the supervisor polling loop, tuning.py lines 231 to 242. -/
inductive PollExit
  | budget
  | all_dead
  | pruned
  deriving DecidableEq

/-- Supervisor polling loop, tuning.py lines 233 to 242: while wall-clock
budget remains, break when every worker process is dead, otherwise sleep one
second and break, after setting the stop event, when trial.should_prune
fires.  fuel is the remaining whole seconds of budget, obs gives the pair
(all workers dead, trial.should_prune result) observed at each iteration and
i is the iteration index. -/
def poll_exit (obs : ℕ → Bool × Bool) : ℕ → ℕ → PollExit
  | _, 0 => PollExit.budget
  | i, fuel + 1 =>
    if (obs i).1 then PollExit.all_dead
    else if (obs i).2 then PollExit.pruned
    else poll_exit obs (i + 1) fuel

/-- Number of stop_event.set calls the supervisor makes, tuning.py lines 240
to 244: one inside the loop exactly when the exit is the prune decision, plus
the unconditional one after the loop at line 244. -/
def supervisor_set_calls (obs : ℕ → Bool × Bool) (fuel : ℕ) : ℕ :=
  (if poll_exit obs 0 fuel = PollExit.pruned then 1 else 0) + 1

/-- Semantics of Event.set of the multiprocessing stop event: it makes the
flag true whatever its previous value; no code path in tuning.py clears the
flag. -/
def apply_set (_ : Bool) : Bool := true

/-- Flag value after a number of set calls starting from the given value. -/
def value_after_sets : ℕ → Bool → Bool
  | 0, v => v
  | k + 1, v => value_after_sets k (apply_set v)

/-- Flag values observed after each of a number of consecutive set calls. -/
def values_after_sets : ℕ → Bool → List Bool
  | 0, _ => []
  | k + 1, v => apply_set v :: values_after_sets k (apply_set v)

/-- Number of unset-to-set transitions along a value sequence starting from
the given previous value. -/
def rising_edges (prev : Bool) : List Bool → ℕ
  | [] => 0
  | b :: rest => (if prev = false ∧ b = true then 1 else 0) + rising_edges b rest

/-- Number of set-to-unset transitions along a value sequence starting from
the given previous value. -/
def falling_edges (prev : Bool) : List Bool → ℕ
  | [] => 0
  | b :: rest => (if prev = true ∧ b = false then 1 else 0) + falling_edges b rest

/-- C7: over one trial the supervisor issues between one and two set calls on
the stop event (two exactly on the prune exit, where the idempotent line 244
call repeats the in-loop one); starting unset, the flag value rises exactly
once across those calls, never falls, and ends set — the signal is set
exactly once during the trial and never reset. -/
theorem stop_signal_set_once (obs : ℕ → Bool × Bool) (fuel : ℕ) :
    1 ≤ supervisor_set_calls obs fuel ∧
    supervisor_set_calls obs fuel ≤ 2 ∧
    value_after_sets (supervisor_set_calls obs fuel) false = true ∧
    rising_edges false (values_after_sets (supervisor_set_calls obs fuel)
      false) = 1 ∧
    falling_edges false (values_after_sets (supervisor_set_calls obs fuel)
      false) = 0 := by
  unfold supervisor_set_calls
  split
  · exact ⟨by decide, by decide, by decide, by decide, by decide⟩
  · exact ⟨by decide, by decide, by decide, by decide, by decide⟩

/-- Observable result of objective, tuning.py lines 171 to 267: a returned
score, the re-raised KeyboardInterrupt of line 264, or the generic wrapped
Exception of line 267.  A prune-specific exception of the search library is
listed as a possible outcome; the code never produces it. -/
inductive TrialOutcome
  | score (value : ℚ)
  | interrupted
  | wrapped_error
  | pruned_exception
  deriving DecidableEq

/-- Continuation after the polling loop, tuning.py lines 244 to 260,
identical on every exit path: set the stop event, join the workers, close the
environment and return mean_rewards; the ZeroDivisionError of line 259 when
global_steps is 0 is caught at line 266 and re-raised as the generic wrapped
Exception. -/
def objective_tail (global_rewards : ℚ) (global_steps : ℕ) : TrialOutcome :=
  match mean_rewards global_rewards global_steps with
  | some v => TrialOutcome.score v
  | none => TrialOutcome.wrapped_error

/-- The objective function from the polling loop onward: every loop exit,
budget exhaustion, cohort death or prune decision, flows into the same
continuation. -/
def objective_result (obs : ℕ → Bool × Bool) (fuel : ℕ)
    (global_rewards : ℚ) (global_steps : ℕ) : TrialOutcome :=
  match poll_exit obs 0 fuel with
  | PollExit.budget => objective_tail global_rewards global_steps
  | PollExit.all_dead => objective_tail global_rewards global_steps
  | PollExit.pruned => objective_tail global_rewards global_steps

/-- The result of objective does not depend on the reason the polling loop
exited. -/
theorem objective_result_eq_tail (obs : ℕ → Bool × Bool) (fuel : ℕ)
    (g : ℚ) (s : ℕ) : objective_result obs fuel g s = objective_tail g s := by
  unfold objective_result
  cases poll_exit obs 0 fuel <;> rfl

/-- C10: when the prune predicate fires the supervisor sets the stop signal
(both set calls happen) and exits the polling loop, and the value objective
returns is exactly the score computed from the shared counters, identical to
the value returned for any non-pruned exit with the same counters; no
prune-specific exception is ever produced. -/
theorem pruned_trial_returns_score (obs obs2 : ℕ → Bool × Bool)
    (fuel fuel2 : ℕ) (g : ℚ) (s : ℕ) :
    (poll_exit obs 0 fuel = PollExit.pruned →
      supervisor_set_calls obs fuel = 2) ∧
    (s ≠ 0 → objective_result obs fuel g s = TrialOutcome.score (g / s)) ∧
    objective_result obs fuel g s = objective_result obs2 fuel2 g s ∧
    objective_result obs fuel g s ≠ TrialOutcome.pruned_exception := by
  refine ⟨?_, ?_, ?_, ?_⟩
  · intro h
    unfold supervisor_set_calls
    rw [h]
    simp
  · intro hs
    rw [objective_result_eq_tail]
    unfold objective_tail mean_rewards
    simp [hs]
  · rw [objective_result_eq_tail, objective_result_eq_tail]
  · rw [objective_result_eq_tail]
    unfold objective_tail mean_rewards
    split <;> simp

/-- Witness for C10: with observations that fire the prune predicate at the
first poll, cumulative reward 10 and 4 shared steps, objective returns the
score 10 / 4. -/
theorem pruned_trial_witness :
    objective_result (fun _ => (false, true)) 1 10 4
      = TrialOutcome.score ((10 : ℚ) / (4 : ℕ)) :=
  (pruned_trial_returns_score (fun _ => (false, true)) (fun _ => (false, false))
      1 1 10 4).2.1 (by decide)

/-- Statements of the try body of the main block, tuning.py lines 271 to 311,
in execution order. -/
inductive DriverStep
  | add_log_handler
  | create_storage
  | create_study
  | restore_sampler
  | count_completed
  | optimize_study
  | report_results
  deriving DecidableEq

/-- Execution order of the try body of the main block. -/
def driver_body : List DriverStep :=
  [DriverStep.add_log_handler, DriverStep.create_storage,
   DriverStep.create_study, DriverStep.restore_sampler,
   DriverStep.count_completed, DriverStep.optimize_study,
   DriverStep.report_results]

/-- The local name study is bound exactly by completion of the create_study
assignment at tuning.py line 279. -/
def binds_study : DriverStep → Bool
  | DriverStep.create_study => true
  | _ => false

/-- Whether study is a bound name at the moment the finally block runs, when
the try body raised at the statement of the given index (none for a body that
completed): the statements before that index completed, the rest never ran.
The except clause at line 313 catches KeyboardInterrupt, OptunaError and
Exception alike, so the finally block runs on every one of these paths. -/
def study_bound : Option ℕ → Bool
  | none => driver_body.any binds_study
  | some k => (driver_body.take k).any binds_study

/-- Outcome of the finally block, tuning.py lines 317 to 320. -/
inductive PersistOutcome
  | written
  | name_error
  deriving DecidableEq

/-- The finally block opens tuning/sampler.pkl for writing and dumps
study.sampler into it; when study is an unbound name, evaluating
study.sampler raises NameError after the open truncated the file, and no
sampler state is written. -/
def finally_persist (bound : Bool) : PersistOutcome :=
  if bound then PersistOutcome.written else PersistOutcome.name_error

/-- Sampler-persistence outcome of a whole run whose try body raised at the
statement of the given index (none for normal completion): the finally block
runs exactly once on every path and its outcome depends only on whether study
is bound. -/
def run_persist (raised : Option ℕ) : PersistOutcome :=
  finally_persist (study_bound raised)

/-- C9 counterexample: a run whose try body raises at statement index 1, the
RDBStorage creation at tuning.py line 275, before study is bound, does not
persist the sampler state: the finally block raises NameError instead of
writing it. -/
theorem sampler_persist_counterexample :
    run_persist (some 1) = PersistOutcome.name_error ∧
    run_persist (some 1) ≠ PersistOutcome.written := by
  refine ⟨by decide, by decide⟩

/-- C9 amended: the finally block runs on every exit path and attempts the
sampler dump exactly once; the dump succeeds on normal completion and on any
exception or interrupt raised at or after statement index 3, once the
create_study assignment has completed, but an exception raised before study
is bound makes the dump itself fail with NameError and no sampler state is
written. -/
theorem sampler_persist_paths :
    run_persist none = PersistOutcome.written ∧
    (∀ k, 3 ≤ k → run_persist (some k) = PersistOutcome.written) ∧
    (∀ k, k < 3 → run_persist (some k) = PersistOutcome.name_error) := by
  refine ⟨by decide, ?_, ?_⟩
  · intro k hk
    have hany : (driver_body.take k).any binds_study = true := by
      have h3 : driver_body.take 3 <+: driver_body.take k :=
        List.take_prefix_take_left driver_body hk
      have hmem : DriverStep.create_study ∈ driver_body.take k :=
        h3.subset (by decide)
      exact List.any_eq_true.mpr ⟨DriverStep.create_study, hmem, rfl⟩
    simp [run_persist, study_bound, finally_persist, hany]
  · intro k hk
    interval_cases k <;> decide

/-- Witness for C9 amended: an interrupt raised during study.optimize, the
statement of index 5, still persists the sampler state. -/
theorem sampler_persist_witness :
    run_persist (some 5) = PersistOutcome.written :=
  sampler_persist_paths.2.1 5 (by decide)

end Tuning
